import Mathlib

/-!
Shallow embedding of the breakout-signal engine of the repository
(`src/signal_generator.py`, `src/value_scanner.py`, `src/scanner.py`).

Conventions of the embedding:
* Python floats (prices, levels) are modelled as exact rationals `ℚ`.
* Calendar dates are modelled as `Nat` (the sort key of the `Date` column);
  the ISO string formatting of dates is a presentation detail that is
  injective on dates, so the returned date is kept as the bar's own key.
* `datetime.now()` is modelled by an explicit clock argument `now : Nat`
  threaded into `check_signal`.
* Mutating methods become state-passing functions
  `SignalGenerator → ... → SignalGenerator × result`.
* A Python function that can return `None` returns an `Option`.
-/

/-- One row of the daily OHLC dataframe (`Date, Open, High, Low, Close`). -/
structure Bar where
  date : Nat
  openPrice : ℚ
  high : ℚ
  low : ℚ
  close : ℚ
deriving DecidableEq, Repr, Inhabited

/-- The `signal_type` field of a `Signal` (`"BUY"` / `"SELL"`). -/
inductive SignalType
| BUY
| SELL
deriving DecidableEq, Repr

/-- The `Signal` dataclass of `signal_generator.py`. -/
structure Signal where
  signal_type : SignalType
  price : ℚ
  trigger_level : ℚ
  timestamp : Nat
  swing_high : ℚ
  swing_low : ℚ
  swing_high_date : Nat
  swing_low_date : Nat
deriving DecidableEq, Repr

/-- The `swing_data` dict stored on a `SignalGenerator`. -/
structure SwingData where
  swing_high : ℚ
  swing_low : ℚ
  swing_high_date : Nat
  swing_low_date : Nat
deriving DecidableEq, Repr

/-- The mutable state of a `SignalGenerator` instance. -/
structure SignalGenerator where
  lookback_days : Nat
  signals_history : List Signal
  last_signal : Option Signal
  swing_data : Option SwingData
  daily_data : Option (List Bar)
deriving DecidableEq, Repr

/-- `SignalGenerator.__init__(lookback_days)`. -/
def SignalGenerator.init (lookback_days : Nat) : SignalGenerator :=
  { lookback_days := lookback_days
    signals_history := []
    last_signal := none
    swing_data := none
    daily_data := none }

/-- `SignalGenerator.set_swing_levels`: replaces `swing_data` unconditionally. -/
def SignalGenerator.set_swing_levels (g : SignalGenerator)
    (swing_high swing_low : ℚ) (high_date low_date : Nat) : SignalGenerator :=
  { g with swing_data := some ⟨swing_high, swing_low, high_date, low_date⟩ }

/-- `SignalGenerator.clear_history`: clears `signals_history` and `last_signal`. -/
def SignalGenerator.clear_history (g : SignalGenerator) : SignalGenerator :=
  { g with signals_history := [], last_signal := none }

/-- Ordering of bars by the `Date` column, used by `df.sort_values("Date")`. -/
def dateLE (a b : Bar) : Prop := a.date ≤ b.date

instance : DecidableRel dateLE := fun a b => Nat.decLe a.date b.date

instance : IsTotal Bar dateLE := ⟨fun a b => Nat.le_total a.date b.date⟩

instance : IsTrans Bar dateLE := ⟨fun _ _ _ h₁ h₂ => Nat.le_trans h₁ h₂⟩

/-- `df.sort_values("Date").reset_index(drop=True)`. -/
def sortByDate (l : List Bar) : List Bar := List.insertionSort dateLE l

/-- Positional access `df.iloc[i]` into the (sorted, reindexed) frame. -/
def bAt (d : List Bar) (i : Nat) : Bar := d.getD i default

/-- Loop body test at line 92: `current["High"] > prev["High"] and current["High"] > next["High"]`. -/
def isSwingHighAt (d : List Bar) (i : Nat) : Bool :=
  decide ((bAt d (i - 1)).high < (bAt d i).high) &&
  decide ((bAt d (i + 1)).high < (bAt d i).high)

/-- Loop body test at line 100: `current["Low"] < prev["Low"] and current["Low"] < next["Low"]`. -/
def isSwingLowAt (d : List Bar) (i : Nat) : Bool :=
  decide ((bAt d i).low < (bAt d (i - 1)).low) &&
  decide ((bAt d i).low < (bAt d (i + 1)).low)

/-- The interior index range `range(1, len(df) - 1)` of the swing scan. -/
def interiorIdxs (d : List Bar) : List Nat := List.range' 1 (d.length - 2)

/-- Index of `swing_highs[-1]`: the last interior index classified as a swing high. -/
def lastSwingHighIdx (d : List Bar) : Option Nat :=
  ((interiorIdxs d).filter (isSwingHighAt d)).getLast?

/-- Index of `swing_lows[-1]`: the last interior index classified as a swing low. -/
def lastSwingLowIdx (d : List Bar) : Option Nat :=
  ((interiorIdxs d).filter (isSwingLowAt d)).getLast?

/-- The fallback slice `df.iloc[-lookback:-1] if len(df) > lookback else df.iloc[:-1]`.
Python slicing makes `-0` mean `0`, so `lookback = 0` also yields `df.iloc[:-1]`. -/
def fallbackWindow (lookback : Nat) (d : List Bar) : List Bar :=
  if d.length > lookback then
    if lookback = 0 then d.dropLast
    else (d.drop (d.length - lookback)).dropLast
  else d.dropLast

/-- `recent_data["High"].idxmax()` row: the first bar attaining the maximal `High`. -/
def firstMaxHigh (l : List Bar) : Option Bar :=
  match l with
  | [] => none
  | b :: bs => some (bs.foldl (fun best x => if best.high < x.high then x else best) b)

/-- `recent_data["Low"].idxmin()` row: the first bar attaining the minimal `Low`. -/
def firstMinLow (l : List Bar) : Option Bar :=
  match l with
  | [] => none
  | b :: bs => some (bs.foldl (fun best x => if x.low < best.low then x else best) b)

/-- The `recent_swing_high` value (price, date): most recent swing high, else
the fallback-window maximum, else nothing (lines 109-122). -/
def highLevel (lookback : Nat) (d : List Bar) : Option (ℚ × Nat) :=
  match lastSwingHighIdx d with
  | some i => some ((bAt d i).high, (bAt d i).date)
  | none =>
    match firstMaxHigh (fallbackWindow lookback d) with
    | some b => some (b.high, b.date)
    | none => none

/-- The `recent_swing_low` value (price, date): most recent swing low, else
the fallback-window minimum, else nothing (lines 124-137). -/
def lowLevel (lookback : Nat) (d : List Bar) : Option (ℚ × Nat) :=
  match lastSwingLowIdx d with
  | some i => some ((bAt d i).low, (bAt d i).date)
  | none =>
    match firstMinLow (fallbackWindow lookback d) with
    | some b => some (b.low, b.date)
    | none => none

/-- Body of `find_swing_points` after the length guard and the sort: picks the
most recent swing high/low, falling back to the window extremum, and returns
`none` for the whole dict when a needed fallback window is empty. -/
def findSwingCore (lookback : Nat) (d : List Bar) : Option SwingData :=
  match highLevel lookback d with
  | none => none
  | some (sh, shd) =>
    match lowLevel lookback d with
    | none => none
    | some (sl, sld) => some ⟨sh, sl, shd, sld⟩

/-- `SignalGenerator.find_swing_points(df)` with `lookback = self.lookback_days`.
A Python `df is None` argument behaves like the short-input case (returns `None`). -/
def find_swing_points (lookback : Nat) (df : List Bar) : Option SwingData :=
  if df.length < 3 then none
  else findSwingCore lookback (sortByDate df)

/-- `SignalGenerator.update_from_dataframe(df)`: refreshes `swing_data` from the
frame when extraction succeeds; never touches `last_signal` or `signals_history`.
A Python `df is None` argument behaves like the empty frame (returns `False`). -/
def SignalGenerator.update_from_dataframe (g : SignalGenerator) (df : List Bar) :
    SignalGenerator × Bool :=
  if df.isEmpty then (g, false)
  else
    let g1 := { g with daily_data := some df }
    match find_swing_points g.lookback_days df with
    | some sp => ({ g1 with swing_data := some sp }, true)
    | none => (g1, false)

/-- The branch structure of lines 210/224 (shared with `get_market_status`):
the candidate direction of a price against the stored levels. -/
def candidateDir (sd : SwingData) (p : ℚ) : Option SignalType :=
  if sd.swing_high < p then some SignalType.BUY
  else if p < sd.swing_low then some SignalType.SELL
  else none

/-- The debounce test at lines 211/225:
`self.last_signal is None or self.last_signal.signal_type != t`. -/
def lastAllows (last : Option Signal) (t : SignalType) : Bool :=
  match last with
  | none => true
  | some ls => decide (ls.signal_type ≠ t)

/-- `SignalGenerator.check_signal(current_price)`; `now` models `datetime.now()`. -/
def SignalGenerator.check_signal (g : SignalGenerator) (now : Nat) (current_price : ℚ) :
    SignalGenerator × Option Signal :=
  match g.swing_data with
  | none => (g, none)
  | some sd =>
    let signal : Option Signal :=
      match candidateDir sd current_price with
      | some t =>
        if lastAllows g.last_signal t then
          some { signal_type := t
                 price := current_price
                 trigger_level :=
                   match t with
                   | SignalType.BUY => sd.swing_high
                   | SignalType.SELL => sd.swing_low
                 timestamp := now
                 swing_high := sd.swing_high
                 swing_low := sd.swing_low
                 swing_high_date := sd.swing_high_date
                 swing_low_date := sd.swing_low_date }
        else none
      | none => none
    match signal with
    | none => (g, none)
    | some s =>
      ({ g with last_signal := some s, signals_history := g.signals_history ++ [s] },
       some s)

/-!
`value_scanner.calculate_rsi(prices, period)`.

`prices.diff()` yields the bar-to-bar differences; `delta.where(delta > 0, 0)`
keeps gains, `-delta.where(delta < 0, 0)` keeps loss magnitudes (the leading
`NaN` of `diff` is replaced by `0` in both, since `NaN > 0` is false);
`.rolling(window=period).mean()` at the last index averages the trailing
`period` entries, which are exactly the last `period` differences once
`len(prices) ≥ period + 1`. The final value is `100 - 100/(1 + gain/loss)`
under IEEE float semantics: when the mean loss is `0` and the mean gain is
positive, `gain/loss = +inf` and the result is exactly `100`; when both means
are `0`, `0/0 = NaN`, the `pd.isna` guard fires and the function returns
`None`. The embedding makes those two float cases explicit over `ℚ`.
-/

/-- `prices.diff()` dropping the leading `NaN`: pairwise differences. -/
def priceDiffs : List ℚ → List ℚ
  | [] => []
  | [_] => []
  | a :: b :: rest => (b - a) :: priceDiffs (b :: rest)

/-- Trailing-`period` mean of the gain series at the last index. -/
def meanGain (prices : List ℚ) (period : Nat) : ℚ :=
  let gains := (priceDiffs prices).map (fun d => if 0 < d then d else 0)
  ((gains.drop (gains.length - period)).foldl (· + ·) 0) / period

/-- Trailing-`period` mean of the loss series at the last index. -/
def meanLoss (prices : List ℚ) (period : Nat) : ℚ :=
  let losses := (priceDiffs prices).map (fun d => if d < 0 then -d else 0)
  ((losses.drop (losses.length - period)).foldl (· + ·) 0) / period

/-- `calculate_rsi(prices, period)`. -/
def calculate_rsi (prices : List ℚ) (period : Nat) : Option ℚ :=
  if prices.length < period + 1 then none
  else if meanLoss prices period = 0 then
    if meanGain prices period = 0 then none
    else some 100
  else
    some (100 - 100 / (1 + meanGain prices period / meanLoss prices period))

/-!
`scanner.BankNiftyScanner.scan`, restricted to the state the claims are about
(the owned `SignalGenerator`). The two fetches of a cycle are passed in as an
environment: `daily` is `data_fetcher.get_banknifty_data(days=10)` and `price`
is `get_current_price()` (`none` models a falsy result; a dict missing the
`"price"` key is `some 0` via `.get("price", 0)`). Email dispatch and the
signal callback are external collaborators with no effect on this state.
-/

/-- The fetch results consumed by one scan cycle. -/
structure ScanEnv where
  daily : Option (List Bar)
  price : Option ℚ

/-- `BankNiftyScanner._initialize..._data` body: refresh swing levels from the
daily fetch when it yielded a non-empty frame. -/
def refreshLevels (g : SignalGenerator) (daily : Option (List Bar)) : SignalGenerator :=
  match daily with
  | none => g
  | some df => if df.isEmpty then g else (g.update_from_dataframe df).1

/-- `BankNiftyScanner.scan()`: refresh levels, validate the price sample,
then check for a signal. -/
def scan (g : SignalGenerator) (env : ScanEnv) (now : Nat) :
    SignalGenerator × Option Signal :=
  let g1 := refreshLevels g env.daily
  match env.price with
  | none => (g1, none)
  | some p => if p ≤ 0 then (g1, none) else g1.check_signal now p

/-!
Operation language for the bookkeeping invariant (C6): an arbitrary finite
sequence of the mutating entry points of `SignalGenerator`.
-/

/-- One mutating call on a `SignalGenerator`. -/
inductive GenOp
| setLevels (swing_high swing_low : ℚ) (high_date low_date : Nat)
| updateFrom (df : List Bar)
| check (now : Nat) (price : ℚ)
| clear
deriving Repr

/-- Apply one operation to the generator state. -/
def applyOp (g : SignalGenerator) : GenOp → SignalGenerator
  | GenOp.setLevels sh sl hd ld => g.set_swing_levels sh sl hd ld
  | GenOp.updateFrom df => (g.update_from_dataframe df).1
  | GenOp.check now p => (g.check_signal now p).1
  | GenOp.clear => g.clear_history

/-- Run a sequence of operations from a starting state. -/
def runOps (g : SignalGenerator) (ops : List GenOp) : SignalGenerator :=
  ops.foldl applyOp g

/-- The transactional bookkeeping invariant: `last_signal` is `none` exactly
when the history is empty, and otherwise it is the history's last element. -/
def BookInv (g : SignalGenerator) : Prop :=
  (g.last_signal = none ↔ g.signals_history = []) ∧
  g.signals_history.getLast? = g.last_signal

instance (g : SignalGenerator) : Decidable (BookInv g) := by
  unfold BookInv; infer_instance

/-!
## Theorems
-/

/-- Case shape of one `check_signal` call: either no signal is returned and the
state is untouched, or a signal `s` is returned and both bookkeeping fields
(`last_signal`, `signals_history`) are updated with it. -/
theorem check_signal_shape (g : SignalGenerator) (now : Nat) (p : ℚ) :
    ((g.check_signal now p).2 = none ∧ (g.check_signal now p).1 = g) ∨
    (∃ s, (g.check_signal now p).2 = some s ∧
      (g.check_signal now p).1 =
        { g with last_signal := some s, signals_history := g.signals_history ++ [s] }) := by
  simp only [SignalGenerator.check_signal]
  split
  · exact Or.inl ⟨rfl, rfl⟩
  · split
    · exact Or.inl ⟨rfl, rfl⟩
    · exact Or.inr ⟨_, rfl, rfl⟩

/-- A `check_signal` emission always passed the debounce test of lines 211/225. -/
theorem emits_lastAllows (g : SignalGenerator) (now : Nat) (p : ℚ) (s : Signal)
    (h : (g.check_signal now p).2 = some s) :
    lastAllows g.last_signal s.signal_type = true := by
  simp only [SignalGenerator.check_signal] at h
  split at h
  · exact absurd h (by simp)
  · split at h
    · exact absurd h (by simp)
    · rename_i s' heq
      simp only at h
      obtain rfl := Option.some.inj h
      split at heq
      · rename_i t hdir
        split at heq
        · rename_i hall
          obtain rfl := Option.some.inj heq
          exact hall
        · exact absurd heq (by simp)
      · exact absurd heq (by simp)

/-- Unfolding of a passed debounce test into the two allowed cases. -/
theorem lastAllows_disj (last : Option Signal) (t : SignalType)
    (h : lastAllows last t = true) :
    last = none ∨ ∃ ls, last = some ls ∧ ls.signal_type ≠ t := by
  cases last with
  | none => exact Or.inl rfl
  | some ls =>
    refine Or.inr ⟨ls, rfl, ?_⟩
    simpa [lastAllows] using h

/-- C1: a `Signal` is emitted only if `last_signal` is absent or has the other
direction; concretely, with levels `{high := 100, low := 90}`, the price
sequence `101, 102, 103` yields exactly one BUY (on `101`) and nothing on
`102`/`103`, and then `89, 101` yields one SELL and one BUY (alternation
re-arms the direction). -/
theorem check_signal_debounce :
    (∀ (g : SignalGenerator) (now : Nat) (p : ℚ) (s : Signal),
        (g.check_signal now p).2 = some s →
        g.last_signal = none ∨
        ∃ ls, g.last_signal = some ls ∧ ls.signal_type ≠ s.signal_type) ∧
    (let g0 := (SignalGenerator.init 10).set_swing_levels 100 90 0 0
     let r1 := g0.check_signal 0 101
     let r2 := r1.1.check_signal 0 102
     let r3 := r2.1.check_signal 0 103
     let r4 := r3.1.check_signal 0 89
     let r5 := r4.1.check_signal 0 101
     r1.2.map Signal.signal_type = some SignalType.BUY ∧
     r2.2 = none ∧ r3.2 = none ∧
     r4.2.map Signal.signal_type = some SignalType.SELL ∧
     r5.2.map Signal.signal_type = some SignalType.BUY) := by
  constructor
  · intro g now p s h
    exact lastAllows_disj _ _ (emits_lastAllows g now p s h)
  · exact ⟨by decide, by decide, by decide, by decide, by decide⟩

/-- Closed instance of the debounce law of C1 at a concrete state and price. -/
theorem check_signal_debounce_witness :
    ((SignalGenerator.init 10).set_swing_levels 100 90 0 0).last_signal = none ∨
    ∃ ls, ((SignalGenerator.init 10).set_swing_levels 100 90 0 0).last_signal = some ls ∧
      ls.signal_type ≠ SignalType.BUY :=
  check_signal_debounce.1 ((SignalGenerator.init 10).set_swing_levels 100 90 0 0) 0 101
    ⟨SignalType.BUY, 101, 100, 0, 100, 90, 0, 0⟩ (by decide)

/-- C2: with levels satisfying `swing_low ≤ swing_high`, the candidate of
`check_signal` is BUY exactly for prices strictly above `swing_high`, SELL
exactly for prices strictly below `swing_low`, and prices in the closed
interval `[swing_low, swing_high]` (boundaries included) give no candidate
and make `check_signal` return `none` with the state unchanged. -/
theorem strict_boundaries (sd : SwingData) (p : ℚ)
    (hle : sd.swing_low ≤ sd.swing_high) :
    (candidateDir sd p = some SignalType.BUY ↔ sd.swing_high < p) ∧
    (candidateDir sd p = some SignalType.SELL ↔ p < sd.swing_low) ∧
    (sd.swing_low ≤ p → p ≤ sd.swing_high →
      candidateDir sd p = none ∧
      ∀ (g : SignalGenerator) (now : Nat), g.swing_data = some sd →
        g.check_signal now p = (g, none)) := by
  refine ⟨?_, ?_, ?_⟩
  · unfold candidateDir
    by_cases h1 : sd.swing_high < p
    · simp [h1]
    · by_cases h2 : p < sd.swing_low <;> simp [h1, h2]
  · unfold candidateDir
    by_cases h1 : sd.swing_high < p
    · have : ¬ p < sd.swing_low := not_lt.mpr (le_trans hle (le_of_lt h1))
      simp [h1, this]
    · by_cases h2 : p < sd.swing_low <;> simp [h1, h2]
  · intro hlo hhi
    have hdir : candidateDir sd p = none := by
      unfold candidateDir
      rw [if_neg (not_lt.mpr hhi), if_neg (not_lt.mpr hlo)]
    refine ⟨hdir, fun g now hg => ?_⟩
    simp only [SignalGenerator.check_signal, hg, hdir]

/-- Closed instance of C2 at levels `{high := 100, low := 90}` and the exact
boundary price `100`: no candidate, and `check_signal` returns `none`. -/
theorem strict_boundaries_witness :
    candidateDir ⟨100, 90, 0, 0⟩ (100 : ℚ) = none ∧
    ∀ (g : SignalGenerator) (now : Nat), g.swing_data = some ⟨100, 90, 0, 0⟩ →
      g.check_signal now 100 = (g, none) :=
  (strict_boundaries ⟨100, 90, 0, 0⟩ 100 (by norm_num)).2.2 (by norm_num) (by norm_num)

/-- C8: fewer than 3 bars make `find_swing_points` return `None`, and fewer
than `period + 1` closes make `calculate_rsi` return `None`; both are total
functions, so neither case can raise. -/
theorem insufficient_history_returns_none (lookback : Nat) (df : List Bar)
    (period : Nat) (prices : List ℚ)
    (hdf : df.length < 3) (hpr : prices.length < period + 1) :
    find_swing_points lookback df = none ∧ calculate_rsi prices period = none := by
  constructor
  · unfold find_swing_points
    rw [if_pos hdf]
  · unfold calculate_rsi
    rw [if_pos hpr]

/-- Closed instance of C8 on the empty series. -/
theorem insufficient_history_returns_none_witness :
    find_swing_points 10 [] = none ∧ calculate_rsi [] 14 = none :=
  insufficient_history_returns_none 10 [] 14 [] (by decide) (by decide)

/-- C7 counterexample: the all-flat series of 15 equal closes has trailing
mean loss zero, yet `calculate_rsi` returns `None`, not `100` (in the source,
`rs = 0/0` is float `NaN`, the `pd.isna` guard fires, and `None` is returned). -/
theorem rsi_flat_series_counterexample :
    meanLoss (List.replicate 15 (100 : ℚ)) 14 = 0 ∧
    calculate_rsi (List.replicate 15 (100 : ℚ)) 14 = none ∧
    calculate_rsi (List.replicate 15 (100 : ℚ)) 14 ≠ some 100 := by
  refine ⟨by with_unfolding_all decide, by with_unfolding_all decide,
    by with_unfolding_all decide⟩

/-- C7 (amended): with enough closes and a zero trailing mean loss,
`calculate_rsi` returns exactly `100` whenever the trailing mean gain is
positive (the zero-loss rule), and `None` when the window is completely flat
(mean gain also zero: the `0/0 = NaN` path), never a division error. -/
theorem rsi_zero_loss_rule (prices : List ℚ) (period : Nat)
    (hlen : period + 1 ≤ prices.length) (hloss : meanLoss prices period = 0) :
    calculate_rsi prices period =
      (if meanGain prices period = 0 then none else some 100) := by
  unfold calculate_rsi
  rw [if_neg (Nat.not_lt.mpr hlen), if_pos hloss]

/-- Closed instance of the amended C7 on 15 strictly increasing closes:
zero losses, positive gains, RSI exactly 100. -/
theorem rsi_zero_loss_rule_witness :
    calculate_rsi ((List.range 15).map (fun i => (i : ℚ))) 14 =
      (if meanGain ((List.range 15).map (fun i => (i : ℚ))) 14 = 0
       then none else some 100) ∧
    calculate_rsi ((List.range 15).map (fun i => (i : ℚ))) 14 = some 100 :=
  ⟨rsi_zero_loss_rule ((List.range 15).map (fun i => (i : ℚ))) 14
      (by decide) (by with_unfolding_all decide),
   by with_unfolding_all decide⟩

/-- `update_from_dataframe` never touches `last_signal` or `signals_history`. -/
theorem update_from_dataframe_preserves (g : SignalGenerator) (df : List Bar) :
    (g.update_from_dataframe df).1.last_signal = g.last_signal ∧
    (g.update_from_dataframe df).1.signals_history = g.signals_history := by
  simp only [SignalGenerator.update_from_dataframe]
  split
  · exact ⟨rfl, rfl⟩
  · split
    · exact ⟨rfl, rfl⟩
    · exact ⟨rfl, rfl⟩

/-- The startup/refresh step of the scanner never touches `last_signal` or
`signals_history` either. -/
theorem refreshLevels_preserves (g : SignalGenerator) (daily : Option (List Bar)) :
    (refreshLevels g daily).last_signal = g.last_signal ∧
    (refreshLevels g daily).signals_history = g.signals_history := by
  unfold refreshLevels
  rcases daily with _ | df
  · exact ⟨rfl, rfl⟩
  · simp only
    split
    · exact ⟨rfl, rfl⟩
    · exact update_from_dataframe_preserves g df

/-- C5: `set_swing_levels` replaces the stored levels unconditionally and
leaves `last_signal` / `signals_history` unchanged; `update_from_dataframe`
also leaves them unchanged and installs the freshly extracted levels on valid
data; hence after a BUY has fired, refreshing to any new levels and feeding a
price above the new swing high still emits nothing. -/
theorem level_refresh_no_rearm :
    (∀ (g : SignalGenerator) (sh sl : ℚ) (hd ld : Nat),
        (g.set_swing_levels sh sl hd ld).last_signal = g.last_signal ∧
        (g.set_swing_levels sh sl hd ld).signals_history = g.signals_history ∧
        (g.set_swing_levels sh sl hd ld).swing_data = some ⟨sh, sl, hd, ld⟩) ∧
    (∀ (g : SignalGenerator) (df : List Bar),
        (g.update_from_dataframe df).1.last_signal = g.last_signal ∧
        (g.update_from_dataframe df).1.signals_history = g.signals_history ∧
        (∀ sp, df ≠ [] → find_swing_points g.lookback_days df = some sp →
          (g.update_from_dataframe df).1.swing_data = some sp)) ∧
    (∀ (g : SignalGenerator) (s : Signal) (sh sl : ℚ) (hd ld : Nat) (now : Nat) (p : ℚ),
        g.last_signal = some s → s.signal_type = SignalType.BUY → sh < p →
        ((g.set_swing_levels sh sl hd ld).check_signal now p).2 = none) := by
  refine ⟨fun g sh sl hd ld => ⟨rfl, rfl, rfl⟩, fun g df => ?_, ?_⟩
  · obtain ⟨h1, h2⟩ := update_from_dataframe_preserves g df
    refine ⟨h1, h2, fun sp hne hfind => ?_⟩
    simp only [SignalGenerator.update_from_dataframe]
    rw [if_neg (by simpa [List.isEmpty_iff] using hne), hfind]
  · intro g s sh sl hd ld now p hlast htype hp
    have hdir : candidateDir ⟨sh, sl, hd, ld⟩ p = some SignalType.BUY := by
      unfold candidateDir
      rw [if_pos hp]
    have hall : lastAllows g.last_signal SignalType.BUY = false := by
      rw [hlast]
      simp [lastAllows, htype]
    simp only [SignalGenerator.check_signal, SignalGenerator.set_swing_levels]
    simp [hdir, hall]

/-- Closed instance of C5: a generator that already fired BUY, refreshed to
strictly higher levels, stays silent on a price above the new high. -/
theorem level_refresh_no_rearm_witness :
    ((((((SignalGenerator.init 10).set_swing_levels 100 90 0 0).check_signal 0 101).1
        ).set_swing_levels 200 120 1 1).check_signal 1 250).2 = none :=
  level_refresh_no_rearm.2.2
    ((((SignalGenerator.init 10).set_swing_levels 100 90 0 0).check_signal 0 101).1)
    ⟨SignalType.BUY, 101, 100, 0, 100, 90, 0, 0⟩ 200 120 1 1 1 250
    (by decide) (by decide) (by norm_num)

/-- C9: when the current-price fetch yields no data or a non-positive price,
`scan` returns no signal and the generator's `last_signal` and
`signals_history` are unchanged by that cycle. -/
theorem scan_aborts_on_bad_price (g : SignalGenerator) (env : ScanEnv) (now : Nat)
    (h : env.price = none ∨ ∃ p, env.price = some p ∧ p ≤ 0) :
    (scan g env now).2 = none ∧
    (scan g env now).1.last_signal = g.last_signal ∧
    (scan g env now).1.signals_history = g.signals_history := by
  obtain ⟨h1, h2⟩ := refreshLevels_preserves g env.daily
  unfold scan
  rcases h with hp | ⟨p, hp, hple⟩ <;> rw [hp]
  · exact ⟨rfl, h1, h2⟩
  · simp only [if_pos hple]
    exact ⟨by trivial, h1, h2⟩

/-- Closed instance of C9: a failed price fetch after a successful refresh
leaves the bookkeeping state of a generator with a recorded BUY untouched. -/
theorem scan_aborts_on_bad_price_witness :
    (scan ((((SignalGenerator.init 10).set_swing_levels 100 90 0 0).check_signal 0 101).1)
        ⟨none, none⟩ 5).2 = none ∧
    (scan ((((SignalGenerator.init 10).set_swing_levels 100 90 0 0).check_signal 0 101).1)
        ⟨none, none⟩ 5).1.last_signal =
      ((((SignalGenerator.init 10).set_swing_levels 100 90 0 0).check_signal 0 101).1).last_signal ∧
    (scan ((((SignalGenerator.init 10).set_swing_levels 100 90 0 0).check_signal 0 101).1)
        ⟨none, none⟩ 5).1.signals_history =
      ((((SignalGenerator.init 10).set_swing_levels 100 90 0 0).check_signal 0 101).1).signals_history :=
  scan_aborts_on_bad_price
    ((((SignalGenerator.init 10).set_swing_levels 100 90 0 0).check_signal 0 101).1)
    ⟨none, none⟩ 5 (Or.inl rfl)

/-- The bookkeeping invariant only reads `last_signal` and `signals_history`. -/
theorem bookInv_of_fields (g g' : SignalGenerator)
    (h1 : g'.last_signal = g.last_signal)
    (h2 : g'.signals_history = g.signals_history)
    (h : BookInv g) : BookInv g' := by
  unfold BookInv at h ⊢
  rw [h1, h2]
  exact h

/-- One mutating call preserves the bookkeeping invariant. -/
theorem applyOp_bookInv (g : SignalGenerator) (op : GenOp) (h : BookInv g) :
    BookInv (applyOp g op) := by
  cases op with
  | setLevels sh sl hd ld => exact bookInv_of_fields g _ rfl rfl h
  | updateFrom df =>
    obtain ⟨h1, h2⟩ := update_from_dataframe_preserves g df
    exact bookInv_of_fields g _ h1 h2 h
  | clear => exact ⟨iff_of_true rfl rfl, rfl⟩
  | check now p =>
    show BookInv (g.check_signal now p).1
    rcases check_signal_shape g now p with ⟨_, hst⟩ | ⟨s, _, hst⟩ <;> rw [hst]
    · exact h
    · exact ⟨by simp, by simp⟩

/-- C6: starting from a fresh `SignalGenerator`, after any finite sequence of
`set_swing_levels`, `update_from_dataframe`, `check_signal` and
`clear_history` calls, `last_signal` is `none` exactly when `signals_history`
is empty, and otherwise equals its final element. -/
theorem bookkeeping_invariant (lookback : Nat) (ops : List GenOp) :
    BookInv (runOps (SignalGenerator.init lookback) ops) := by
  have hstep : ∀ (ops' : List GenOp) (g : SignalGenerator), BookInv g →
      BookInv (runOps g ops') := by
    intro ops'
    induction ops' with
    | nil => exact fun g h => h
    | cons op rest ih =>
      intro g h
      exact ih (applyOp g op) (applyOp_bookInv g op h)
  exact hstep ops (SignalGenerator.init lookback) ⟨by simp [SignalGenerator.init], rfl⟩

/-- Closed instance of C6 after a concrete operation sequence ending in an
emission and a clear. -/
theorem bookkeeping_invariant_witness :
    BookInv (runOps (SignalGenerator.init 10)
      [GenOp.setLevels 100 90 0 0, GenOp.check 0 101, GenOp.check 0 102,
       GenOp.check 0 89, GenOp.clear]) :=
  bookkeeping_invariant 10
    [GenOp.setLevels 100 90 0 0, GenOp.check 0 101, GenOp.check 0 102,
     GenOp.check 0 89, GenOp.clear]

/-- C4 counterexample: with `lookback = 1`, the date-sorted 3-bar series below
has a qualifying swing high at interior index 1, no qualifying swing low, and
an empty fallback window; `find_swing_points` then returns `none` for the
whole level set instead of a result with the high side populated. -/
theorem one_sided_fallback_counterexample :
    lastSwingHighIdx
      (sortByDate [⟨0, 0, 1, 1, 0⟩, ⟨1, 0, 3, 1, 0⟩, ⟨2, 0, 1, 1, 0⟩]) = some 1 ∧
    lastSwingLowIdx
      (sortByDate [⟨0, 0, 1, 1, 0⟩, ⟨1, 0, 3, 1, 0⟩, ⟨2, 0, 1, 1, 0⟩]) = none ∧
    fallbackWindow 1
      (sortByDate [⟨0, 0, 1, 1, 0⟩, ⟨1, 0, 3, 1, 0⟩, ⟨2, 0, 1, 1, 0⟩]) = [] ∧
    find_swing_points 1 [⟨0, 0, 1, 1, 0⟩, ⟨1, 0, 3, 1, 0⟩, ⟨2, 0, 1, 1, 0⟩] = none :=
  ⟨by decide, by decide, by decide, by decide⟩

/-- C4 (amended): when either side has no qualifying swing point and the
fallback window (the last `lookback` bars excluding the final one) is empty,
`find_swing_points` returns `none` for the entire level set — it never
returns a one-sided result. -/
theorem fallback_empty_returns_none_whole (lookback : Nat) (df : List Bar)
    (hwin : fallbackWindow lookback (sortByDate df) = [])
    (hside : lastSwingHighIdx (sortByDate df) = none ∨
             lastSwingLowIdx (sortByDate df) = none) :
    find_swing_points lookback df = none := by
  unfold find_swing_points
  split
  · rfl
  · unfold findSwingCore
    rcases hside with h1 | h1
    · have hh : highLevel lookback (sortByDate df) = none := by
        unfold highLevel
        rw [h1, hwin]
        rfl
      rw [hh]
    · have hl : lowLevel lookback (sortByDate df) = none := by
        unfold lowLevel
        rw [h1, hwin]
        rfl
      simp only [hl]
      split <;> rfl

/-- Closed instance of the amended C4 at the 3-bar series with a swing high
but no swing low and `lookback = 1`. -/
theorem fallback_empty_returns_none_whole_witness :
    find_swing_points 1 [⟨0, 0, 2, 1, 0⟩, ⟨1, 0, 5, 1, 0⟩, ⟨2, 0, 2, 1, 0⟩] = none :=
  fallback_empty_returns_none_whole 1
    [⟨0, 0, 2, 1, 0⟩, ⟨1, 0, 5, 1, 0⟩, ⟨2, 0, 2, 1, 0⟩]
    (by decide) (Or.inr (by decide))

/-- `getLast?` of a filtered increasing range: if `p` holds at `i` and at no
index above `i` inside the range, the last kept element is `i`. -/
theorem filter_range'_getLast (m i : Nat) (p : Nat → Bool)
    (h1 : 1 ≤ i) (h2 : i ≤ m) (hp : p i = true)
    (habove : ∀ k, i < k → k ≤ m → p k = false) :
    ((List.range' 1 m).filter p).getLast? = some i := by
  have e1 : List.range' 1 i ++ List.range' (1 + i) (m - i) = List.range' 1 m := by
    rw [List.range'_append_1]
    congr 1
    omega
  have e2 : List.range' 1 i = List.range' 1 (i - 1) ++ [i] := by
    conv_lhs => rw [show i = (i - 1) + 1 by omega]
    rw [List.range'_1_concat]
    congr 2
    omega
  have e3 : (List.range' (1 + i) (m - i)).filter p = [] := by
    rw [List.filter_eq_nil_iff]
    intro a ha
    obtain ⟨j, hj, rfl⟩ := List.mem_range'.mp ha
    rw [habove (1 + i + 1 * j) (by omega) (by omega)]
    simp
  calc ((List.range' 1 m).filter p).getLast?
      = ((List.range' 1 i).filter p ++ (List.range' (1 + i) (m - i)).filter p).getLast? := by
        rw [← List.filter_append, e1]
    _ = ((List.range' 1 i).filter p).getLast? := by
        rw [e3, List.append_nil]
    _ = ((List.range' 1 (i - 1)).filter p ++ [i]).getLast? := by
        rw [e2, List.filter_append]
        congr 1
        simp [hp]
    _ = some i := List.getLast?_concat _

/-- Characterisation of `swing_highs[-1]`: the highest interior index whose
high beats both neighbours. -/
theorem lastSwingHighIdx_eq (d : List Bar) (i : Nat) (hlen : 3 ≤ d.length)
    (h0 : 0 < i) (hi : i + 1 < d.length) (hp : isSwingHighAt d i = true)
    (habove : ∀ k, i < k → k + 1 < d.length → isSwingHighAt d k = false) :
    lastSwingHighIdx d = some i := by
  unfold lastSwingHighIdx interiorIdxs
  exact filter_range'_getLast (d.length - 2) i (isSwingHighAt d)
    h0 (by omega) hp (fun k hk1 hk2 => habove k hk1 (by omega))

/-- Characterisation of `swing_lows[-1]`: the highest interior index whose
low undercuts both neighbours. -/
theorem lastSwingLowIdx_eq (d : List Bar) (j : Nat) (hlen : 3 ≤ d.length)
    (h0 : 0 < j) (hj : j + 1 < d.length) (hp : isSwingLowAt d j = true)
    (habove : ∀ k, j < k → k + 1 < d.length → isSwingLowAt d k = false) :
    lastSwingLowIdx d = some j := by
  unfold lastSwingLowIdx interiorIdxs
  exact filter_range'_getLast (d.length - 2) j (isSwingLowAt d)
    h0 (by omega) hp (fun k hk1 hk2 => habove k hk1 (by omega))

/-- With at least 3 bars and `lookback ≥ 2`, the fallback window is nonempty. -/
theorem fallbackWindow_ne_nil (lookback : Nat) (d : List Bar)
    (hlb : 2 ≤ lookback) (hlen : 3 ≤ d.length) :
    fallbackWindow lookback d ≠ [] := by
  unfold fallbackWindow
  intro hcontra
  split at hcontra
  · rw [if_neg (by omega : ¬ lookback = 0)] at hcontra
    have hl := congrArg List.length hcontra
    simp only [List.length_dropLast, List.length_drop, List.length_nil] at hl
    omega
  · have hl := congrArg List.length hcontra
    simp only [List.length_dropLast, List.length_nil] at hl
    omega

/-- With at least 3 bars and `lookback ≥ 2`, the high side always produces a
value (swing or fallback). -/
theorem highLevel_isSome (lookback : Nat) (d : List Bar)
    (hlb : 2 ≤ lookback) (hlen : 3 ≤ d.length) :
    ∃ sh shd, highLevel lookback d = some (sh, shd) := by
  unfold highLevel
  cases hidx : lastSwingHighIdx d with
  | some i => exact ⟨_, _, rfl⟩
  | none =>
    cases hw : fallbackWindow lookback d with
    | nil => exact absurd hw (fallbackWindow_ne_nil lookback d hlb hlen)
    | cons b bs =>
      exact ⟨_, _, rfl⟩

/-- With at least 3 bars and `lookback ≥ 2`, the low side always produces a
value (swing or fallback). -/
theorem lowLevel_isSome (lookback : Nat) (d : List Bar)
    (hlb : 2 ≤ lookback) (hlen : 3 ≤ d.length) :
    ∃ sl sld, lowLevel lookback d = some (sl, sld) := by
  unfold lowLevel
  cases hidx : lastSwingLowIdx d with
  | some j => exact ⟨_, _, rfl⟩
  | none =>
    cases hw : fallbackWindow lookback d with
    | nil => exact absurd hw (fallbackWindow_ne_nil lookback d hlb hlen)
    | cons b bs =>
      exact ⟨_, _, rfl⟩

/-- C3: on a date-sorted series of at least 3 bars (with `lookback ≥ 2`, so
that the other side's fallback cannot empty out the result), if `i` is the
highest interior index whose high strictly beats both neighbours, the
returned `swing_high` is that bar's high with that bar's own date; the low
side is symmetric with strict undercuts, and the two scans are independent
conjuncts. -/
theorem swing_selection (lookback : Nat) (df : List Bar)
    (hlb : 2 ≤ lookback) (hsorted : List.Sorted dateLE df) (hlen : 3 ≤ df.length) :
    (∀ i, 0 < i → i + 1 < df.length → isSwingHighAt df i = true →
        (∀ k, i < k → k + 1 < df.length → isSwingHighAt df k = false) →
        ∃ sd, find_swing_points lookback df = some sd ∧
          sd.swing_high = (bAt df i).high ∧ sd.swing_high_date = (bAt df i).date) ∧
    (∀ j, 0 < j → j + 1 < df.length → isSwingLowAt df j = true →
        (∀ k, j < k → k + 1 < df.length → isSwingLowAt df k = false) →
        ∃ sd, find_swing_points lookback df = some sd ∧
          sd.swing_low = (bAt df j).low ∧ sd.swing_low_date = (bAt df j).date) := by
  have hsort : sortByDate df = df := hsorted.insertionSort_eq
  have hfsp : find_swing_points lookback df = findSwingCore lookback df := by
    unfold find_swing_points
    rw [if_neg (by omega : ¬ df.length < 3), hsort]
  constructor
  · intro i h0 hi hp habove
    have hhigh : lastSwingHighIdx df = some i :=
      lastSwingHighIdx_eq df i hlen h0 hi hp habove
    obtain ⟨sl, sld, hlow⟩ := lowLevel_isSome lookback df hlb hlen
    have hhl : highLevel lookback df = some ((bAt df i).high, (bAt df i).date) := by
      unfold highLevel
      rw [hhigh]
    refine ⟨⟨(bAt df i).high, sl, (bAt df i).date, sld⟩, ?_, rfl, rfl⟩
    rw [hfsp]
    unfold findSwingCore
    rw [hhl, hlow]
  · intro j h0 hj hp habove
    have hlowidx : lastSwingLowIdx df = some j :=
      lastSwingLowIdx_eq df j hlen h0 hj hp habove
    obtain ⟨sh, shd, hhigh⟩ := highLevel_isSome lookback df hlb hlen
    have hll : lowLevel lookback df = some ((bAt df j).low, (bAt df j).date) := by
      unfold lowLevel
      rw [hlowidx]
    refine ⟨⟨sh, (bAt df j).low, shd, (bAt df j).date⟩, ?_, rfl, rfl⟩
    rw [hfsp]
    unfold findSwingCore
    rw [hhigh, hll]

/-- Closed instance of C3: a 3-bar sorted series whose middle bar is both the
swing high and the swing low. -/
theorem swing_selection_witness :
    ∃ sd, find_swing_points 10 [⟨0, 0, 1, 5, 0⟩, ⟨1, 0, 3, 2, 0⟩, ⟨2, 0, 1, 5, 0⟩] =
        some sd ∧
      sd.swing_high = (bAt [⟨0, 0, 1, 5, 0⟩, ⟨1, 0, 3, 2, 0⟩, ⟨2, 0, 1, 5, 0⟩] 1).high ∧
      sd.swing_high_date = (bAt [⟨0, 0, 1, 5, 0⟩, ⟨1, 0, 3, 2, 0⟩, ⟨2, 0, 1, 5, 0⟩] 1).date :=
  (swing_selection 10 [⟨0, 0, 1, 5, 0⟩, ⟨1, 0, 3, 2, 0⟩, ⟨2, 0, 1, 5, 0⟩]
      (by omega) (by decide) (by decide)).1 1
    (by decide) (by decide) (by decide)
    (fun k hk1 hk2 => by
      simp only [List.length_cons, List.length_nil] at hk2
      omega)

/-- Strict date order on bars, used to make sorted permutations unique. -/
def dateLT (a b : Bar) : Prop := a.date < b.date

instance : IsAntisymm Bar dateLT :=
  ⟨fun _ _ h1 h2 => absurd h1 (Nat.lt_asymm h2)⟩

/-- Two permutations of the same rows with pairwise-distinct dates sort to the
same list. -/
theorem sortByDate_eq_of_perm (l₁ l₂ : List Bar) (hperm : l₁.Perm l₂)
    (hnd : (l₁.map Bar.date).Nodup) :
    sortByDate l₁ = sortByDate l₂ := by
  have hs₁ : List.Sorted dateLE (sortByDate l₁) := List.sorted_insertionSort dateLE l₁
  have hs₂ : List.Sorted dateLE (sortByDate l₂) := List.sorted_insertionSort dateLE l₂
  have hp₁ : (sortByDate l₁).Perm l₁ := List.perm_insertionSort dateLE l₁
  have hp₂ : (sortByDate l₂).Perm l₂ := List.perm_insertionSort dateLE l₂
  have hp : (sortByDate l₁).Perm (sortByDate l₂) :=
    hp₁.trans (hperm.trans hp₂.symm)
  have strict : ∀ (l : List Bar), List.Sorted dateLE l → (l.map Bar.date).Nodup →
      List.Sorted dateLT l := by
    intro l hs hn
    have hne : l.Pairwise (fun a b => a.date ≠ b.date) :=
      (List.pairwise_map.mp hn)
    exact (List.Pairwise.and hs hne).imp
      (fun hab => Nat.lt_of_le_of_ne hab.1 hab.2)
  have hnd₁ : ((sortByDate l₁).map Bar.date).Nodup :=
    ((hp₁.map Bar.date).nodup_iff).mpr hnd
  have hnd₂ : ((sortByDate l₂).map Bar.date).Nodup :=
    ((hp₂.map Bar.date).nodup_iff).mpr (((hperm.map Bar.date).nodup_iff).mp hnd)
  exact List.eq_of_perm_of_sorted hp (strict _ hs₁ hnd₁) (strict _ hs₂ hnd₂)

/-- C10: `find_swing_points` sorts by `Date` first, so on rows with
pairwise-distinct dates the result is invariant under any permutation of the
input rows — callers need not pre-sort. -/
theorem extraction_order_insensitive (lookback : Nat) (l₁ l₂ : List Bar)
    (hperm : l₁.Perm l₂) (hnd : (l₁.map Bar.date).Nodup) :
    find_swing_points lookback l₁ = find_swing_points lookback l₂ := by
  unfold find_swing_points
  rw [hperm.length_eq, sortByDate_eq_of_perm l₁ l₂ hperm hnd]

/-- Closed instance of C10: a shuffled 3-bar series extracts the same levels
as its date-sorted arrangement. -/
theorem extraction_order_insensitive_witness :
    find_swing_points 10 [⟨2, 0, 1, 5, 0⟩, ⟨0, 0, 1, 5, 0⟩, ⟨1, 0, 3, 2, 0⟩] =
      find_swing_points 10 [⟨0, 0, 1, 5, 0⟩, ⟨1, 0, 3, 2, 0⟩, ⟨2, 0, 1, 5, 0⟩] :=
  extraction_order_insensitive 10
    [⟨2, 0, 1, 5, 0⟩, ⟨0, 0, 1, 5, 0⟩, ⟨1, 0, 3, 2, 0⟩]
    [⟨0, 0, 1, 5, 0⟩, ⟨1, 0, 3, 2, 0⟩, ⟨2, 0, 1, 5, 0⟩]
    (by decide) (by decide)
